import Mathlib

/-!
Verification of the Nuvex TWAP/HFT market-making repository.

This file gives a shallow embedding of the pricing, risk-management and
TWAP-execution components of the repository and proves (or refutes)
the frozen claims about them.  Floating-point arithmetic in the source is
modelled over the real numbers; purely algebraic components (risk checks,
execution-plan construction) are modelled over the rationals so that the
resulting predicates are decidable.
-/

open Real

/-! ## Avellaneda-Stoikov model, `AvellanedaStoikovModel` (unnamed part_005)

Parameters γ (risk aversion), σ (volatility), T (horizon), k (liquidity),
A (arrival intensity) and the target inventory `q_target` are fields of the
model object; `S` is the mid price, `q` the inventory, `t` the current time.
-/

structure ASParams where
  gamma : ℝ
  sigma : ℝ
  T : ℝ
  k : ℝ
  A : ℝ
  qTarget : ℝ

/-- Embedding of `calculateReservationPrice(S, q, t)`:
`r = S - (γ * σ² * (T - t) * q) / 2`. -/
noncomputable def calculateReservationPrice (m : ASParams) (S q t : ℝ) : ℝ :=
  S - m.gamma * m.sigma ^ 2 * (m.T - t) * q / 2

/-- Embedding of `calculateOptimalSpread(t)` of the model class: the code
computes `halfSpread = (γσ²(T-t))/2 + (2/γ)ln(1+γ/k)` and returns
`halfSpread * 2`. -/
noncomputable def calculateOptimalSpreadModel (m : ASParams) (t : ℝ) : ℝ :=
  (m.gamma * m.sigma ^ 2 * (m.T - t) / 2 + 2 / m.gamma * Real.log (1 + m.gamma / m.k)) * 2

/-- Embedding of `calculateInventoryAdjustment(q)`:
`tanh((q - q_target) * 2) * (σ * 0.1)`. -/
noncomputable def calculateInventoryAdjustment (m : ASParams) (q : ℝ) : ℝ :=
  Real.tanh ((q - m.qTarget) * 2) * (m.sigma * 0.1)

/-- The record returned by `calculateOptimalQuotes`. -/
structure ASQuote where
  bidPrice : ℝ
  askPrice : ℝ
  reservationPrice : ℝ
  spread : ℝ
  bidIntensity : ℝ
  askIntensity : ℝ
  inventoryAdjustment : ℝ

/-- Embedding of `calculateOptimalQuotes(S, q, t)` of the model class,
including the `Math.max`/`Math.min` safety bounds at `0.95 S` / `1.05 S`.
The arrival intensities use the unclamped bid/ask, as in the source. -/
noncomputable def calculateOptimalQuotes (m : ASParams) (S q t : ℝ) : ASQuote :=
  let r := calculateReservationPrice m S q t
  let optimalSpread := calculateOptimalSpreadModel m t
  let halfSpread := optimalSpread / 2
  let adj := calculateInventoryAdjustment m q
  let bid := r - halfSpread - adj
  let ask := r + halfSpread + adj
  { bidPrice := max bid (S * 0.95)
    askPrice := min ask (S * 1.05)
    reservationPrice := r
    spread := optimalSpread
    bidIntensity := m.A * Real.exp (-m.k * (S - bid))
    askIntensity := m.A * Real.exp (-m.k * (ask - S))
    inventoryAdjustment := adj }

/-- Default model parameters of the source constructor
(γ=0.1, σ=0.2, T=1.0, k=1.5, A=100, q_target=0). -/
noncomputable def defaultASParams : ASParams :=
  { gamma := 0.1, sigma := 0.2, T := 1.0, k := 1.5, A := 100, qTarget := 0 }

/-! ## Standalone calculator, `AvellanedaStoikovCalculator` (calculator.js)

This is the variant the specification fixes as canonical:
`δ = γσ²(T-t) + (2/γ)ln(1+γ/κ)`.  Its JavaScript source applies the
falsy-coalescing `timeRemaining || this.T`, which replaces a **zero**
time-remaining argument by the full horizon `T`. -/

structure ASCalcParams where
  gamma : ℝ
  sigma : ℝ
  T : ℝ

/-- Embedding of the JavaScript expression `x || d` on numbers: a zero value
falls back to the default. -/
noncomputable def jsOrDefault (x d : ℝ) : ℝ :=
  if x = 0 then d else x

structure CalcInventory where
  ethBalance : ℝ
  usdtBalance : ℝ
  targetBalance : ℝ

/-- Embedding of `calculateReservationPrice(currentPrice, inventory, timeRemaining)`
of the standalone calculator, with `q = ethBalance - targetBalance` and the
`timeRemaining || this.T` fallback. -/
noncomputable def calcReservationPrice (p : ASCalcParams) (S : ℝ) (inv : CalcInventory)
    (timeRemaining : ℝ) : ℝ :=
  let q := inv.ethBalance - inv.targetBalance
  let tRem := jsOrDefault timeRemaining p.T
  S - p.gamma * p.sigma ^ 2 * tRem * q / 2

/-- Embedding of `calculateOptimalSpread(timeRemaining, arrivalIntensity)` of
the standalone calculator:
`δ = γ * σ² * t_remaining + (2/γ) * ln(1 + γ/κ)` with the
`timeRemaining || this.T` fallback. -/
noncomputable def calcOptimalSpread (p : ASCalcParams) (timeRemaining kappa : ℝ) : ℝ :=
  let tRem := jsOrDefault timeRemaining p.T
  p.gamma * p.sigma ^ 2 * tRem + 2 / p.gamma * Real.log (1 + p.gamma / kappa)

structure CalcQuote where
  reservationPrice : ℝ
  optimalSpread : ℝ
  bidPrice : ℝ
  askPrice : ℝ
  midPrice : ℝ

/-- Embedding of `calculateOptimalQuotes(currentPrice, inventory, timeRemaining)`
of the standalone calculator.  The call to `calculateOptimalSpread` leaves the
arrival-intensity argument at its default `1.5`. -/
noncomputable def calcOptimalQuotes (p : ASCalcParams) (S : ℝ) (inv : CalcInventory)
    (timeRemaining : ℝ) : CalcQuote :=
  let r := calcReservationPrice p S inv timeRemaining
  let d := calcOptimalSpread p timeRemaining (3 / 2)
  { reservationPrice := r
    optimalSpread := d
    bidPrice := r - d / 2
    askPrice := r + d / 2
    midPrice := ((r - d / 2) + (r + d / 2)) / 2 }

/-- Configuration of `calculator.js` (`RISK_AVERSION=0.1`, `VOLATILITY=0.2`,
`TIME_HORIZON=1.0`). -/
noncomputable def defaultASCalcParams : ASCalcParams :=
  { gamma := 0.1, sigma := 0.2, T := 1.0 }

/-- Balanced inventory: holdings equal to the target, hence `q = 0`. -/
noncomputable def balancedInventory : CalcInventory :=
  { ethBalance := 5, usdtBalance := 10000, targetBalance := 5 }

/-! ## Volatility estimator, `estimateVolatility` (unnamed part_005)

The price history is modelled by its chronological list of prices; the
timestamps stored alongside are never read by `estimateVolatility`. -/

/-- Log-returns of consecutive prices: `r_i = ln(P_i / P_{i-1})`. -/
noncomputable def logReturns : List ℝ → List ℝ
  | [] => []
  | [_] => []
  | a :: b :: rest => Real.log (b / a) :: logReturns (b :: rest)

/-- The EWMA variance of the source: seeded with `returns[0]²` and folded with
`ewmaVar = 0.94 * ewmaVar + 0.06 * r²` over the remaining returns. -/
noncomputable def ewmaVarSeed : List ℝ → ℝ
  | [] => 0
  | r :: rest => rest.foldl (fun v x => 0.94 * v + 0.06 * x ^ 2) (r ^ 2)

/-- Embedding of `estimateVolatility()`: histories with fewer than two prices
return σ unchanged; otherwise the EWMA variance of the log-returns is
annualized with `365*24*60*60/5` and blended `0.9·σ_old + 0.1·σ_new`.
The source applies no clamp to the result. -/
noncomputable def estimateVolatility (sigma : ℝ) (prices : List ℝ) : ℝ :=
  if prices.length < 2 then sigma
  else
    let ewmaVar := ewmaVarSeed (logReturns prices)
    let volatility := Real.sqrt (ewmaVar * (365 * 24 * 60 * 60 / 5))
    sigma * (1 - 0.1) + volatility * 0.1

/-! ## Risk manager, `RiskManager` (unnamed part_004)

All arithmetic here is rational in the source (comparisons, additions,
multiplications by rational constants), so the embedding uses `ℚ` and the
resulting checks are decidable.  Wall-clock dates are abstracted as natural
numbers and `Date.now()` instants as integers (milliseconds). -/

structure RiskConfig where
  maxDailyLoss : ℚ
  maxPositionSize : ℚ
  maxOrderSize : ℚ
  maxSlippage : ℚ
  maxDrawdown : ℚ
deriving DecidableEq

structure RiskState where
  dailyPnL : ℚ
  currentPosition : ℚ
  peakValue : ℚ
  lastResetDate : ℕ
  emergencyStop : Bool
  tradingPaused : Bool
deriving DecidableEq

inductive OrderDirection
  | buy
  | sell
deriving DecidableEq

structure OrderIntent where
  direction : OrderDirection
  totalSize : ℚ
  targetPrice : ℚ
deriving DecidableEq

structure MarketData where
  currentPrice : ℚ
  volatility : ℚ
  bidAskSpread : ℚ
  priceChange24h : ℚ
  timestamp : ℤ
deriving DecidableEq

structure Inventory where
  eth : ℚ
  usdt : ℚ
deriving DecidableEq

/-- The constraint names with which `validateOrder` rejects, in source order. -/
inductive RiskError
  | tradingNotAllowed
  | orderSizeExceeded
  | positionExceeded
  | dailyLossExceeded
  | spreadTooWide
  | staleData
  | flashCrash
  | slippageExceeded
deriving DecidableEq

/-- Embedding of `isTradingAllowed()`: trading is blocked while either the
emergency stop or the pause flag is set. -/
def isTradingAllowed (s : RiskState) : Bool :=
  !s.emergencyStop && !s.tradingPaused

/-- Embedding of `resetDailyPnLIfNeeded()`: on the first call of a new
wall-clock day the daily PnL is zeroed. -/
def resetDailyPnLIfNeeded (s : RiskState) (today : ℕ) : RiskState :=
  if today ≠ s.lastResetDate then { s with dailyPnL := 0, lastResetDate := today } else s

/-- Embedding of `calculateNewPosition(order, currentInventory)`. -/
def calculateNewPosition (o : OrderIntent) (inv : Inventory) : ℚ :=
  match o.direction with
  | .buy => inv.eth + o.totalSize
  | .sell => inv.eth - o.totalSize

/-- Embedding of `estimateOrderPnL(order, marketData)`: a 0.2% slippage
adjustment applied to the current price. -/
def estimateOrderPnL (o : OrderIntent) (m : MarketData) : ℚ :=
  match o.direction with
  | .buy => o.totalSize * (m.currentPrice - m.currentPrice * (1002 / 1000))
  | .sell => o.totalSize * (m.currentPrice * (998 / 1000) - m.currentPrice)

/-- Embedding of `validateMarketConditions(marketData)`: spread over 1%,
staleness strictly above 30000 ms, or a 24h drop below −20% reject the order
(the volatility warning in the source does not throw). -/
def validateMarketConditions (m : MarketData) (nowMs : ℤ) : Except RiskError Unit :=
  if m.bidAskSpread > 1 / 100 then .error .spreadTooWide
  else if nowMs - m.timestamp > 30000 then .error .staleData
  else if m.priceChange24h < -(1 / 5) then .error .flashCrash
  else .ok ()

/-- Embedding of `validateSlippage(order, marketData)`. -/
def validateSlippage (cfg : RiskConfig) (o : OrderIntent) (m : MarketData) :
    Except RiskError Unit :=
  if |o.targetPrice - m.currentPrice| / m.currentPrice > cfg.maxSlippage then
    .error .slippageExceeded
  else .ok ()

/-- The check chain of `validateOrder` on the post-reset state `s1`: the
checks run in source order, short-circuiting on the first violation.  The
state component is `s1` whether or not validation succeeds. -/
def validateOrderChecks (cfg : RiskConfig) (s1 : RiskState) (o : OrderIntent) (inv : Inventory)
    (m : MarketData) (nowMs : ℤ) : RiskState × Except RiskError Unit :=
  if !isTradingAllowed s1 then (s1, .error .tradingNotAllowed)
  else if o.totalSize > cfg.maxOrderSize then (s1, .error .orderSizeExceeded)
  else if |calculateNewPosition o inv| > cfg.maxPositionSize then (s1, .error .positionExceeded)
  else if s1.dailyPnL + estimateOrderPnL o m < -cfg.maxDailyLoss then
    (s1, .error .dailyLossExceeded)
  else
    match validateMarketConditions m nowMs with
    | .error e => (s1, .error e)
    | .ok _ =>
      match validateSlippage cfg o m with
      | .error e => (s1, .error e)
      | .ok _ => (s1, .ok ())

/-- Embedding of `validateOrder(order, currentInventory, marketData)`: the
daily-PnL reset runs first (the only state change), then the checks run in
source order. -/
def validateOrder (cfg : RiskConfig) (s : RiskState) (o : OrderIntent) (inv : Inventory)
    (m : MarketData) (nowMs : ℤ) (today : ℕ) : RiskState × Except RiskError Unit :=
  validateOrderChecks cfg (resetDailyPnLIfNeeded s today) o inv m nowMs

/-- Embedding of `calculatePortfolioValue(inventory, currentPrice)`. -/
def calculatePortfolioValue (invEth invUsdt price : ℚ) : ℚ :=
  invEth * price + invUsdt

/-- Embedding of `calculateDrawdown(currentValue)`. -/
def calculateDrawdown (s : RiskState) (v : ℚ) : ℚ :=
  if s.peakValue = 0 then 0 else (s.peakValue - v) / s.peakValue

/-- Embedding of `checkRiskLimits(portfolioValue)`: a daily-loss or drawdown
breach activates the emergency stop (both flags); a position breach only
pauses trading.  No branch ever clears a flag. -/
def checkRiskLimits (cfg : RiskConfig) (s : RiskState) (v : ℚ) : RiskState :=
  if s.dailyPnL < -cfg.maxDailyLoss then { s with emergencyStop := true, tradingPaused := true }
  else if calculateDrawdown s v > cfg.maxDrawdown then
    { s with emergencyStop := true, tradingPaused := true }
  else if |s.currentPosition| > cfg.maxPositionSize then { s with tradingPaused := true }
  else s

/-- The data of an `executionResult` consumed by `updateRiskMetrics`. -/
structure ExecResult where
  pnl : ℚ
  size : ℚ
  direction : OrderDirection
  invEth : ℚ
  invUsdt : ℚ
  currentPrice : ℚ
deriving DecidableEq

/-- The PnL-accumulation step of `updateRiskMetrics`. -/
def accumulatePnL (s : RiskState) (r : ExecResult) : RiskState :=
  { s with dailyPnL := s.dailyPnL + r.pnl }

/-- The position-update step of `updateRiskMetrics`. -/
def applyPosition (s : RiskState) (r : ExecResult) : RiskState :=
  match r.direction with
  | .buy => { s with currentPosition := s.currentPosition + r.size }
  | .sell => { s with currentPosition := s.currentPosition - r.size }

/-- The peak-value update step of `updateRiskMetrics`. -/
def raisePeak (s : RiskState) (v : ℚ) : RiskState :=
  if v > s.peakValue then { s with peakValue := v } else s

/-- Embedding of `updateRiskMetrics(executionResult)`: accumulate daily PnL,
move the position, raise the peak value, then run `checkRiskLimits`. -/
def updateRiskMetrics (cfg : RiskConfig) (s : RiskState) (r : ExecResult) : RiskState :=
  let v := calculatePortfolioValue r.invEth r.invUsdt r.currentPrice
  checkRiskLimits cfg (raisePeak (applyPosition (accumulatePnL s r) r) v) v

/-- Embedding of `resumeTrading()`. -/
def resumeTrading (s : RiskState) : RiskState :=
  { s with tradingPaused := false }

/-- Embedding of `resetEmergencyStop()`. -/
def resetEmergencyStop (s : RiskState) : RiskState :=
  { s with emergencyStop := false, tradingPaused := false }

/-- The risk-manager operations that run automatically (no manual reset):
order validations and post-execution metric updates. -/
inductive RiskOp
  | validate (o : OrderIntent) (inv : Inventory) (m : MarketData) (nowMs : ℤ) (today : ℕ)
  | update (r : ExecResult)

/-- State effect of one automatic risk-manager operation. -/
def applyRiskOp (cfg : RiskConfig) (s : RiskState) : RiskOp → RiskState
  | .validate o inv m nowMs today => (validateOrder cfg s o inv m nowMs today).1
  | .update r => updateRiskMetrics cfg s r

/-- State effect of a sequence of automatic risk-manager operations. -/
def applyRiskOps (cfg : RiskConfig) (s : RiskState) (ops : List RiskOp) : RiskState :=
  ops.foldl (applyRiskOp cfg) s

/-- Default risk limits of the source constructor. -/
def defaultRiskConfig : RiskConfig :=
  { maxDailyLoss := 1000, maxPositionSize := 10, maxOrderSize := 1,
    maxSlippage := 5 / 1000, maxDrawdown := 1 / 10 }

/-- Fresh risk state produced by the constructor (day tag abstracted as 0). -/
def initialRiskState : RiskState :=
  { dailyPnL := 0, currentPosition := 0, peakValue := 0, lastResetDate := 0,
    emergencyStop := false, tradingPaused := false }

/-! ## TWAP executor, `TWAPExecutor` (src/execution/TWAPExecutor.js)

`calculateExecutionPlan` is pure rational arithmetic; the scheduling loop
`scheduleExecution`/`executePart`/`failOrder` is modelled by a sequential
run over the plan driven by a success/failure oracle for the external
execution backend (a thrown backend or slippage error at part `i` is
`backend i = false`). -/

structure ExecConfig where
  minOrderSize : ℚ
  maxOrderSize : ℚ
deriving DecidableEq

/-- The fields of a quote read by `calculateExecutionPlan`. -/
structure QuoteInfo where
  inventoryAdjustment : ℚ
  reservationPrice : ℚ
deriving DecidableEq

inductive PartStatus
  | pending
  | executed
  | failed
  | skipped
deriving DecidableEq

structure PartSpec where
  partIndex : ℕ
  size : ℚ
  executionTime : ℚ
  status : PartStatus
  targetPrice : ℚ
deriving DecidableEq

/-- The pre-clamp part size: the JavaScript truthiness test
`quotes && quotes.inventoryAdjustment` applies the ±10% skew scaling only when
a quote is present with a nonzero adjustment. -/
def planPartSize (baseSize : ℚ) (quotes : Option QuoteInfo) : ℚ :=
  match quotes with
  | some qu =>
    if qu.inventoryAdjustment ≠ 0 then baseSize * (1 + qu.inventoryAdjustment * (1 / 10))
    else baseSize
  | none => baseSize

/-- The target price stored in each part: `quotes ? quotes.reservationPrice : 0`. -/
def planTargetPrice (quotes : Option QuoteInfo) : ℚ :=
  match quotes with
  | some qu => qu.reservationPrice
  | none => 0

/-- Embedding of `calculateExecutionPlan(totalSize, duration, maxParts, quotes)`.
`Date.now()` is abstracted by the parameter `nowMs` (the source re-reads the
clock in each loop iteration; with a fixed instant the schedule is exactly
`now + i·(duration/maxParts)`). -/
def calculateExecutionPlan (cfg : ExecConfig) (nowMs : ℚ) (totalSize duration : ℚ)
    (maxParts : ℕ) (quotes : Option QuoteInfo) : List PartSpec :=
  (List.range maxParts).map fun i =>
    { partIndex := i
      size := max cfg.minOrderSize
        (min cfg.maxOrderSize (planPartSize (totalSize / maxParts) quotes))
      executionTime := nowMs + i * (duration / maxParts)
      status := .pending
      targetPrice := planTargetPrice quotes }

/-- Sum of the sizes of the parts of a plan. -/
def sumSizes (plan : List PartSpec) : ℚ :=
  (plan.map PartSpec.size).sum

/-- Default execution parameters of the source constructor
(`minOrderSize = 0.01`, `maxOrderSize = 1.0`). -/
def defaultExecConfig : ExecConfig :=
  { minOrderSize := 1 / 100, maxOrderSize := 1 }

/-- Order-level status of an active TWAP order. -/
inductive OrderStatus
  | active
  | completed
  | failedStatus
deriving DecidableEq

/-- The part of an active order's record that the scheduling loop touches. -/
structure ActiveOrder where
  plan : List PartSpec
  status : OrderStatus
deriving DecidableEq

/-- Mark a part executed, as `executePart` does on backend success. -/
def markExecuted (p : PartSpec) : PartSpec :=
  { p with status := .executed }

/-- Mark a part failed, as the `catch` branch of `executePart` does. -/
def markFailed (p : PartSpec) : PartSpec :=
  { p with status := .failed }

/-- The sequential execution loop of `scheduleExecution`: parts run in order;
a successful part is marked `executed` and the loop continues; the first
backend failure marks that part `failed` and stops the loop, leaving every
later part untouched.  The boolean result tells whether all parts succeeded. -/
def runParts (backend : ℕ → Bool) : List PartSpec → ℕ → List PartSpec × Bool
  | [], _ => ([], true)
  | p :: rest, i =>
    if backend i then
      let result := runParts backend rest (i + 1)
      (markExecuted p :: result.1, result.2)
    else
      (markFailed p :: rest, false)

/-- Order-level outcome of the scheduling loop: on success `completeOrder`
marks the order completed, on a part failure `failOrder` marks it failed;
both remove the order from the `activeOrders` map (the second component is
`true` iff the order is still in the map afterwards). -/
def runOrder (backend : ℕ → Bool) (ord : ActiveOrder) : ActiveOrder × Bool :=
  if (runParts backend ord.plan 0).2 then
    ({ plan := (runParts backend ord.plan 0).1, status := .completed }, false)
  else ({ plan := (runParts backend ord.plan 0).1, status := .failedStatus }, false)

/-! ## Concrete instances used by counterexamples and witnesses -/

/-- A half-ETH buy order at the market price. -/
def smallOrder : OrderIntent :=
  { direction := .buy, totalSize := 1 / 2, targetPrice := 100 }

/-- The order of end-to-end scenario 3: total size 1.5 against a 1.0 limit. -/
def oversizedOrder : OrderIntent :=
  { direction := .buy, totalSize := 3 / 2, targetPrice := 100 }

/-- An empty inventory. -/
def flatInventory : Inventory :=
  { eth := 0, usdt := 0 }

/-- A benign market snapshot: tight spread, no 24h move, quote time 0. -/
def calmMarket : MarketData :=
  { currentPrice := 100, volatility := 0, bidAskSpread := 1 / 1000,
    priceChange24h := 0, timestamp := 0 }

/-- An execution result losing 2000 USD, double the default daily-loss limit. -/
def bigLossResult : ExecResult :=
  { pnl := -2000, size := 1, direction := .buy, invEth := 0, invUsdt := 0, currentPrice := 100 }

/-- A risk state whose emergency stop has been activated. -/
def stoppedRiskState : RiskState :=
  { initialRiskState with emergencyStop := true }

/-- A sample sequence of automatic risk-manager operations: one metrics update
(with a wall-clock date change in the following validation) and one validation. -/
def riskOpsSample : List RiskOp :=
  [RiskOp.update bigLossResult, RiskOp.validate smallOrder flatInventory calmMarket 0 1]

/-- A pending tenth-of-an-ETH part. -/
def samplePart (i : ℕ) : PartSpec :=
  { partIndex := i, size := 1 / 10, executionTime := i * 30000, status := .pending,
    targetPrice := 3400 }

/-- A three-part active order, all parts pending. -/
def sampleActiveOrder : ActiveOrder :=
  { plan := [samplePart 0, samplePart 1, samplePart 2], status := .active }

/-- An execution backend that succeeds on the first part and fails on the
second. -/
def backendFailSecond : ℕ → Bool :=
  fun i => i == 0

/-! ## Helper lemmas -/

theorem quotes_reservationPrice (m : ASParams) (S q t : ℝ) :
    (calculateOptimalQuotes m S q t).reservationPrice = calculateReservationPrice m S q t := rfl

theorem quotes_spread (m : ASParams) (S q t : ℝ) :
    (calculateOptimalQuotes m S q t).spread = calculateOptimalSpreadModel m t := rfl

theorem quotes_adjustment (m : ASParams) (S q t : ℝ) :
    (calculateOptimalQuotes m S q t).inventoryAdjustment = calculateInventoryAdjustment m q := rfl

theorem quotes_bidPrice (m : ASParams) (S q t : ℝ) :
    (calculateOptimalQuotes m S q t).bidPrice
      = max (calculateReservationPrice m S q t - calculateOptimalSpreadModel m t / 2 -
          calculateInventoryAdjustment m q) (S * 0.95) := rfl

theorem quotes_askPrice (m : ASParams) (S q t : ℝ) :
    (calculateOptimalQuotes m S q t).askPrice
      = min (calculateReservationPrice m S q t + calculateOptimalSpreadModel m t / 2 +
          calculateInventoryAdjustment m q) (S * 1.05) := rfl

theorem calcQuote_optimalSpread (p : ASCalcParams) (S : ℝ) (inv : CalcInventory) (tr : ℝ) :
    (calcOptimalQuotes p S inv tr).optimalSpread = calcOptimalSpread p tr (3 / 2) := rfl

theorem calcQuote_bidPrice (p : ASCalcParams) (S : ℝ) (inv : CalcInventory) (tr : ℝ) :
    (calcOptimalQuotes p S inv tr).bidPrice
      = calcReservationPrice p S inv tr - calcOptimalSpread p tr (3 / 2) / 2 := rfl

theorem calcQuote_askPrice (p : ASCalcParams) (S : ℝ) (inv : CalcInventory) (tr : ℝ) :
    (calcOptimalQuotes p S inv tr).askPrice
      = calcReservationPrice p S inv tr + calcOptimalSpread p tr (3 / 2) / 2 := rfl

/-! ## C4: reservation-price formula and quote symmetry -/

/-- C4.  For every mid-price `S`, inventory `q` and time `0 ≤ t ≤ T`, the
computed reservation price equals `S - (γ·σ²·(T-t)·q)/2`; when `q = 0` and
the inventory target is `0`, the inventory adjustment is `0` and the
reservation price equals the mid price exactly. -/
theorem reservation_formula_and_symmetry (m : ASParams) (S q t : ℝ)
    (ht0 : 0 ≤ t) (htT : t ≤ m.T) :
    (calculateOptimalQuotes m S q t).reservationPrice
        = S - m.gamma * m.sigma ^ 2 * (m.T - t) * q / 2 ∧
      (q = 0 → m.qTarget = 0 →
        (calculateOptimalQuotes m S q t).inventoryAdjustment = 0 ∧
          (calculateOptimalQuotes m S q t).reservationPrice = S) := by
  refine ⟨rfl, fun hq hqt => ⟨?_, ?_⟩⟩
  · rw [quotes_adjustment]
    simp [calculateInventoryAdjustment, hq, hqt]
  · rw [quotes_reservationPrice]
    simp [calculateReservationPrice, hq]

/-- Witness for C4 at the scenario-1 state: γ=0.1, σ=0.2, T=1, S=3400, q=0,
t=0. -/
theorem reservation_formula_witness :
    (calculateOptimalQuotes defaultASParams 3400 0 0).reservationPrice = 3400 ∧
      (calculateOptimalQuotes defaultASParams 3400 0 0).inventoryAdjustment = 0 := by
  have h := reservation_formula_and_symmetry defaultASParams 3400 0 0 le_rfl
    (by norm_num [defaultASParams])
  obtain ⟨hadj, hres⟩ := h.2 rfl rfl
  exact ⟨hres, hadj⟩

/-! ## C2: bid ≤ reservation ≤ ask -/

/-- C2 counterexample.  With the default parameters (γ=0.1>0, k=1.5>0,
σ=0.2≥0, T=1≥t=0≥0), mid price S=100>0 and inventory q=10000, the reservation
price is 80 while the 0.95·S safety clamp forces the bid to at least 95, so
`bidPrice ≤ reservationPrice` fails. -/
theorem clamp_breaks_bid_le_reservation :
    ¬ ((calculateOptimalQuotes defaultASParams 100 10000 0).bidPrice
        ≤ (calculateOptimalQuotes defaultASParams 100 10000 0).reservationPrice) := by
  have hres : (calculateOptimalQuotes defaultASParams 100 10000 0).reservationPrice = 80 := by
    rw [quotes_reservationPrice]
    norm_num [calculateReservationPrice, defaultASParams]
  have hbid : (95 : ℝ) ≤ (calculateOptimalQuotes defaultASParams 100 10000 0).bidPrice := by
    rw [quotes_bidPrice]
    calc (95 : ℝ) = 100 * 0.95 := by norm_num
    _ ≤ _ := le_max_right _ _
  rw [hres]
  linarith

/-- C2 amended.  For all γ>0, k>0, σ≥0, T≥t≥0, S>0 and inventory q, provided
the half-spread dominates a possibly negative inventory adjustment
(`0 ≤ δ/2 + adj`) and the reservation price lies inside the safety band
`[0.95·S, 1.05·S]`, the quote satisfies
`bidPrice ≤ reservationPrice ≤ askPrice`.  (The counterexample above shows
the band hypothesis cannot be dropped.) -/
theorem quotes_ordered_within_band (m : ASParams) (S q t : ℝ)
    (hg : 0 < m.gamma) (hk : 0 < m.k) (hs : 0 ≤ m.sigma) (ht0 : 0 ≤ t) (htT : t ≤ m.T)
    (hS : 0 < S)
    (hadj : 0 ≤ calculateOptimalSpreadModel m t / 2 + calculateInventoryAdjustment m q)
    (hlo : S * 0.95 ≤ calculateReservationPrice m S q t)
    (hhi : calculateReservationPrice m S q t ≤ S * 1.05) :
    (calculateOptimalQuotes m S q t).bidPrice ≤ (calculateOptimalQuotes m S q t).reservationPrice
      ∧ (calculateOptimalQuotes m S q t).reservationPrice
          ≤ (calculateOptimalQuotes m S q t).askPrice := by
  rw [quotes_bidPrice, quotes_askPrice, quotes_reservationPrice]
  constructor
  · exact max_le (by linarith) hlo
  · exact le_min (by linarith) hhi

/-- Witness for C2 amended at the default parameters with S=100, q=0, t=0:
the adjustment vanishes, the half-spread is nonnegative (the log term is a
logarithm of a number ≥ 1) and the reservation price (=100) sits inside
[95, 105]. -/
theorem quotes_ordered_witness :
    (calculateOptimalQuotes defaultASParams 100 0 0).bidPrice
        ≤ (calculateOptimalQuotes defaultASParams 100 0 0).reservationPrice
      ∧ (calculateOptimalQuotes defaultASParams 100 0 0).reservationPrice
          ≤ (calculateOptimalQuotes defaultASParams 100 0 0).askPrice := by
  have hlog : 0 ≤ Real.log (1 + (0.1 : ℝ) / 1.5) := Real.log_nonneg (by norm_num)
  apply quotes_ordered_within_band defaultASParams 100 0 0
  · norm_num [defaultASParams]
  · norm_num [defaultASParams]
  · norm_num [defaultASParams]
  · exact le_rfl
  · norm_num [defaultASParams]
  · norm_num
  · have hadj : calculateInventoryAdjustment defaultASParams 0 = 0 := by
      simp [calculateInventoryAdjustment, defaultASParams]
    rw [hadj]
    unfold calculateOptimalSpreadModel
    simp only [defaultASParams]
    nlinarith [hlog]
  · norm_num [calculateReservationPrice, defaultASParams]
  · norm_num [calculateReservationPrice, defaultASParams]

/-! ## C3: time-range precondition -/

/-- C3 counterexample.  `calculateOptimalQuotes` performs no time-range
validation: at the default parameters (T=1) the call with t=2 > T does not
fail but returns an ordinary quote (its reservation price is the mid price,
since q=0). -/
theorem quote_returned_beyond_horizon :
    defaultASParams.T < 2 ∧
      (calculateOptimalQuotes defaultASParams 3400 0 2).reservationPrice = 3400 := by
  constructor
  · norm_num [defaultASParams]
  · rw [quotes_reservationPrice]
    norm_num [calculateReservationPrice, defaultASParams]

/-- C3 amended.  The quote computation has no `InvalidTimeRange` failure
path: for every t outside `[0, T]` it still returns a quote, computed with
`timeToMaturity = T - t` by the usual formulas. -/
theorem quote_total_outside_range (m : ASParams) (S q t : ℝ) (h : t < 0 ∨ m.T < t) :
    (calculateOptimalQuotes m S q t).reservationPrice
        = S - m.gamma * m.sigma ^ 2 * (m.T - t) * q / 2 ∧
      (calculateOptimalQuotes m S q t).spread
        = (m.gamma * m.sigma ^ 2 * (m.T - t) / 2 + 2 / m.gamma * Real.log (1 + m.gamma / m.k))
            * 2 := by
  exact ⟨rfl, rfl⟩

/-- Witness for C3 amended at t = -1 < 0 with the default parameters. -/
theorem quote_total_outside_range_witness :
    (calculateOptimalQuotes defaultASParams 3400 1 (-1)).reservationPrice
        = 3400 - defaultASParams.gamma * defaultASParams.sigma ^ 2
            * (defaultASParams.T - (-1)) * 1 / 2 ∧
      (calculateOptimalQuotes defaultASParams 3400 1 (-1)).spread
        = (defaultASParams.gamma * defaultASParams.sigma ^ 2 * (defaultASParams.T - (-1)) / 2
            + 2 / defaultASParams.gamma
              * Real.log (1 + defaultASParams.gamma / defaultASParams.k)) * 2 :=
  quote_total_outside_range defaultASParams 3400 1 (-1) (Or.inl (by norm_num))

/-! ## C1: optimal-spread formula and scenario 1 -/

/-- A two-sided numeric enclosure of `log(16/15) = log(1 + γ/k)` at γ=0.1,
k=1.5, obtained from the degree-4 Taylor estimate of `log(1-x)` at x=1/16. -/
theorem log_ratio_bounds :
    (64537 : ℝ) / 1000000 ≤ Real.log (16 / 15) ∧
      Real.log (16 / 15) ≤ (64540 : ℝ) / 1000000 := by
  have habs : |(1 / 16 : ℝ)| = 1 / 16 := by rw [abs_of_pos]; norm_num
  have z := Real.abs_log_sub_add_sum_range_le (x := (1 / 16 : ℝ)) (by rw [habs]; norm_num) 4
  rw [habs] at z
  rw [show (1 : ℝ) - 1 / 16 = (16 / 15)⁻¹ by norm_num, Real.log_inv] at z
  simp_rw [Finset.sum_range_succ] at z
  norm_num at z
  rw [abs_le] at z
  constructor <;> linarith [z.1, z.2]

theorem scenario_spread_eq :
    calcOptimalSpread defaultASCalcParams 1 (3 / 2) = 1 / 250 + 20 * Real.log (16 / 15) := by
  unfold calcOptimalSpread jsOrDefault
  rw [if_neg (by norm_num)]
  norm_num [defaultASCalcParams]

theorem scenario_reservation_eq :
    calcReservationPrice defaultASCalcParams 3400 balancedInventory 1 = 3400 := by
  unfold calcReservationPrice jsOrDefault
  norm_num [defaultASCalcParams, balancedInventory]

/-- C1 counterexample.  At t = T the time-remaining argument is `T - t = 0`,
and the JavaScript fallback `timeRemaining || this.T` silently replaces it by
the full horizon T, so the returned `optimalSpread` is
`γσ²·T + (2/γ)ln(1+γ/k)` instead of the claimed `γσ²·0 + (2/γ)ln(1+γ/k)`
(the two differ by γσ²T = 1/250 at the default parameters). -/
theorem spread_formula_fails_at_horizon :
    (calcOptimalQuotes defaultASCalcParams 3400 balancedInventory 0).optimalSpread
      ≠ defaultASCalcParams.gamma * defaultASCalcParams.sigma ^ 2 * 0
          + 2 / defaultASCalcParams.gamma
            * Real.log (1 + defaultASCalcParams.gamma / (3 / 2)) := by
  rw [calcQuote_optimalSpread]
  unfold calcOptimalSpread jsOrDefault
  rw [if_pos rfl]
  norm_num [defaultASCalcParams]

/-- C1 amended.  For every γ>0, κ>0, σ≥0 and 0 ≤ t < T (so that the
time-remaining argument `T-t` is nonzero and the `|| T` fallback is inert),
`calculateOptimalSpread` returns exactly `γσ²(T-t) + (2/γ)ln(1+γ/κ)`; and in
scenario 1 (γ=0.1, σ=0.2, T=1, κ=1.5, S=3400, q=0, t=0) the quote's
`optimalSpread` is within 1/1000 of 1.294, its bid within 1/1000 of 3399.353
and its ask within 1/1000 of 3400.647. -/
theorem optimalSpread_formula_and_scenario :
    (∀ (p : ASCalcParams) (kappa t : ℝ), 0 < p.gamma → 0 < kappa → 0 ≤ p.sigma →
        0 ≤ t → t < p.T →
        calcOptimalSpread p (p.T - t) kappa
          = p.gamma * p.sigma ^ 2 * (p.T - t) + 2 / p.gamma * Real.log (1 + p.gamma / kappa)) ∧
      |(calcOptimalQuotes defaultASCalcParams 3400 balancedInventory 1).optimalSpread - 1.294|
          < 1 / 1000 ∧
      |(calcOptimalQuotes defaultASCalcParams 3400 balancedInventory 1).bidPrice - 3399.353|
          < 1 / 1000 ∧
      |(calcOptimalQuotes defaultASCalcParams 3400 balancedInventory 1).askPrice - 3400.647|
          < 1 / 1000 := by
  have hb := log_ratio_bounds
  refine ⟨fun p kappa t hg hk hs ht0 htT => ?_, ?_, ?_, ?_⟩
  · unfold calcOptimalSpread jsOrDefault
    rw [if_neg (ne_of_gt (sub_pos.mpr htT))]
  · rw [calcQuote_optimalSpread, scenario_spread_eq, abs_lt]
    constructor <;> linarith [hb.1, hb.2]
  · rw [calcQuote_bidPrice, scenario_spread_eq, scenario_reservation_eq, abs_lt]
    constructor <;> linarith [hb.1, hb.2]
  · rw [calcQuote_askPrice, scenario_spread_eq, scenario_reservation_eq, abs_lt]
    constructor <;> linarith [hb.1, hb.2]

/-- Witness for C1 amended: the spread formula instantiated at γ=0.1, σ=0.2,
T=1, κ=2, t=1/2. -/
theorem optimalSpread_formula_witness :
    calcOptimalSpread defaultASCalcParams (defaultASCalcParams.T - 1 / 2) 2
      = defaultASCalcParams.gamma * defaultASCalcParams.sigma ^ 2
          * (defaultASCalcParams.T - 1 / 2)
        + 2 / defaultASCalcParams.gamma
          * Real.log (1 + defaultASCalcParams.gamma / 2) :=
  optimalSpread_formula_and_scenario.1 defaultASCalcParams 2 (1 / 2)
    (by norm_num [defaultASCalcParams]) (by norm_num)
    (by norm_num [defaultASCalcParams]) (by norm_num)
    (by norm_num [defaultASCalcParams])

/-! ## C9: volatility estimator -/

/-- C9 counterexample.  The source applies no clamp to the estimate: for the
two-price history `[1, e]` the single log-return is 1, the EWMA variance is 1,
and the returned blend `0.9·0.2 + 0.1·sqrt(6307200) ≈ 251` exceeds the claimed
100% (=1.0) annualized upper clamp. -/
theorem volatility_not_clamped :
    1 < estimateVolatility 0.2 [1, Real.exp 1] := by
  have h1 : logReturns [1, Real.exp 1] = [1] := by
    simp [logReturns, Real.log_exp]
  have h2 : ewmaVarSeed [(1 : ℝ)] = 1 := by
    simp [ewmaVarSeed]
  unfold estimateVolatility
  rw [if_neg (by norm_num)]
  rw [h1, h2]
  have h3 : (10 : ℝ) < Real.sqrt (1 * (365 * 24 * 60 * 60 / 5)) := by
    rw [Real.lt_sqrt (by norm_num)]
    norm_num
  nlinarith [h3]

/-- C9 amended.  Histories with fewer than two prices return σ unchanged;
histories with at least two prices return the unclamped blend
`0.9·σ + 0.1·sqrt(var·(365·24·60·60/5))`, where `var` is the EWMA variance
(`var_t = 0.94·var_{t-1} + 0.06·r_t²`, seeded with the first squared
log-return) of the log-returns of the history. -/
theorem estimateVolatility_spec (sigma : ℝ) (prices : List ℝ) :
    (prices.length < 2 → estimateVolatility sigma prices = sigma) ∧
      (2 ≤ prices.length →
        estimateVolatility sigma prices
          = sigma * 0.9 + Real.sqrt (ewmaVarSeed (logReturns prices) * 6307200) * 0.1) := by
  constructor
  · intro h
    unfold estimateVolatility
    rw [if_pos h]
  · intro h
    unfold estimateVolatility
    rw [if_neg (by omega)]
    norm_num

/-- Witness for C9 amended on the three-price constant history `[1,1,1]`. -/
theorem estimateVolatility_spec_witness :
    estimateVolatility 0.2 [1, 1, 1]
      = 0.2 * 0.9 + Real.sqrt (ewmaVarSeed (logReturns [1, 1, 1]) * 6307200) * 0.1 :=
  (estimateVolatility_spec 0.2 [1, 1, 1]).2 (by simp)

/-! ## Risk-manager helper lemmas -/

theorem validateOrder_fst (cfg : RiskConfig) (s : RiskState) (o : OrderIntent) (inv : Inventory)
    (m : MarketData) (nowMs : ℤ) (today : ℕ) :
    (validateOrder cfg s o inv m nowMs today).1 = resetDailyPnLIfNeeded s today := by
  unfold validateOrder validateOrderChecks
  repeat' split
  all_goals rfl

theorem reset_emergencyStop (s : RiskState) (today : ℕ) :
    (resetDailyPnLIfNeeded s today).emergencyStop = s.emergencyStop := by
  unfold resetDailyPnLIfNeeded
  split_ifs <;> rfl

theorem checkRiskLimits_dailyPnL (cfg : RiskConfig) (s : RiskState) (v : ℚ) :
    (checkRiskLimits cfg s v).dailyPnL = s.dailyPnL := by
  unfold checkRiskLimits
  split_ifs <;> rfl

theorem checkRiskLimits_stop_mono (cfg : RiskConfig) (s : RiskState) (v : ℚ)
    (h : s.emergencyStop = true) : (checkRiskLimits cfg s v).emergencyStop = true := by
  unfold checkRiskLimits
  split_ifs <;> simp [h]

theorem accumulatePnL_stop (s : RiskState) (r : ExecResult) :
    (accumulatePnL s r).emergencyStop = s.emergencyStop := rfl

theorem applyPosition_stop (s : RiskState) (r : ExecResult) :
    (applyPosition s r).emergencyStop = s.emergencyStop := by
  unfold applyPosition
  split <;> rfl

theorem raisePeak_stop (s : RiskState) (v : ℚ) :
    (raisePeak s v).emergencyStop = s.emergencyStop := by
  unfold raisePeak
  split_ifs <;> rfl

theorem applyPosition_dailyPnL (s : RiskState) (r : ExecResult) :
    (applyPosition s r).dailyPnL = s.dailyPnL := by
  unfold applyPosition
  split <;> rfl

theorem raisePeak_dailyPnL (s : RiskState) (v : ℚ) :
    (raisePeak s v).dailyPnL = s.dailyPnL := by
  unfold raisePeak
  split_ifs <;> rfl

theorem updateRiskMetrics_stop_mono (cfg : RiskConfig) (s : RiskState) (r : ExecResult)
    (h : s.emergencyStop = true) : (updateRiskMetrics cfg s r).emergencyStop = true := by
  unfold updateRiskMetrics
  apply checkRiskLimits_stop_mono
  rw [raisePeak_stop, applyPosition_stop, accumulatePnL_stop]
  exact h

theorem updateRiskMetrics_dailyPnL (cfg : RiskConfig) (s : RiskState) (r : ExecResult) :
    (updateRiskMetrics cfg s r).dailyPnL = s.dailyPnL + r.pnl := by
  unfold updateRiskMetrics
  rw [checkRiskLimits_dailyPnL, raisePeak_dailyPnL, applyPosition_dailyPnL]
  rfl

theorem updateRiskMetrics_stop_of_loss (cfg : RiskConfig) (s : RiskState) (r : ExecResult)
    (h : (updateRiskMetrics cfg s r).dailyPnL < -cfg.maxDailyLoss) :
    (updateRiskMetrics cfg s r).emergencyStop = true := by
  have hd : (raisePeak (applyPosition (accumulatePnL s r) r)
      (calculatePortfolioValue r.invEth r.invUsdt r.currentPrice)).dailyPnL
        < -cfg.maxDailyLoss := by
    rw [raisePeak_dailyPnL, applyPosition_dailyPnL]
    rw [updateRiskMetrics_dailyPnL] at h
    exact h
  unfold updateRiskMetrics
  unfold checkRiskLimits
  rw [if_pos hd]

theorem applyRiskOps_stop_mono (cfg : RiskConfig) (ops : List RiskOp) :
    ∀ s : RiskState, s.emergencyStop = true →
      (applyRiskOps cfg s ops).emergencyStop = true := by
  induction ops with
  | nil => intro s h; simpa [applyRiskOps]
  | cons op rest ih =>
    intro s h
    show (applyRiskOps cfg (applyRiskOp cfg s op) rest).emergencyStop = true
    apply ih
    cases op with
    | validate o inv m nowMs today =>
      show ((validateOrder cfg s o inv m nowMs today).1).emergencyStop = true
      rw [validateOrder_fst, reset_emergencyStop]
      exact h
    | update r => exact updateRiskMetrics_stop_mono cfg s r h

/-! ## C5: validateOrder check sequence -/

/-- C5 counterexample.  The claim states the staleness constraint as
"market-data staleness < 30s", but the source only rejects when the age
strictly exceeds 30000 ms: at a market snapshot exactly 30000 ms old (with
every other check passing) the claimed constraint is violated yet
`validateOrder` succeeds. -/
theorem staleness_boundary_passes :
    validateOrder defaultRiskConfig initialRiskState smallOrder flatInventory calmMarket 30000 0
        = (initialRiskState, .ok ()) ∧
      ¬ ((30000 : ℤ) - calmMarket.timestamp < 30000) := by
  constructor
  · norm_num [validateOrder, validateOrderChecks, resetDailyPnLIfNeeded, isTradingAllowed,
      validateMarketConditions, validateSlippage, calculateNewPosition, estimateOrderPnL,
      defaultRiskConfig, initialRiskState, smallOrder, flatInventory, calmMarket,
      abs_of_nonneg]
  · decide

/-- C5 amended.  `validateOrder` evaluates its constraints sequentially in
source order — trading-allowed state, order size ≤ maxOrderSize, resulting
position ≤ maxPositionSize, projected daily PnL ≥ −maxDailyLoss, bid/ask
spread ≤ 1%, market-data staleness ≤ 30s (it rejects only a strictly larger
age), no flash crash (24h change < −20%), expected slippage ≤ maxSlippage —
failing with the error of the first violated constraint; the only state
change is the daily-PnL reset, which is the identity when the wall-clock
date is unchanged. -/
theorem validateOrder_sequence (cfg : RiskConfig) (s : RiskState) (o : OrderIntent)
    (inv : Inventory) (m : MarketData) (nowMs : ℤ) (today : ℕ) :
    (isTradingAllowed (resetDailyPnLIfNeeded s today) = false →
      validateOrder cfg s o inv m nowMs today
        = (resetDailyPnLIfNeeded s today, .error .tradingNotAllowed)) ∧
    (isTradingAllowed (resetDailyPnLIfNeeded s today) = true →
      o.totalSize > cfg.maxOrderSize →
      validateOrder cfg s o inv m nowMs today
        = (resetDailyPnLIfNeeded s today, .error .orderSizeExceeded)) ∧
    (isTradingAllowed (resetDailyPnLIfNeeded s today) = true →
      ¬ o.totalSize > cfg.maxOrderSize →
      |calculateNewPosition o inv| > cfg.maxPositionSize →
      validateOrder cfg s o inv m nowMs today
        = (resetDailyPnLIfNeeded s today, .error .positionExceeded)) ∧
    (isTradingAllowed (resetDailyPnLIfNeeded s today) = true →
      ¬ o.totalSize > cfg.maxOrderSize →
      ¬ |calculateNewPosition o inv| > cfg.maxPositionSize →
      (resetDailyPnLIfNeeded s today).dailyPnL + estimateOrderPnL o m < -cfg.maxDailyLoss →
      validateOrder cfg s o inv m nowMs today
        = (resetDailyPnLIfNeeded s today, .error .dailyLossExceeded)) ∧
    (isTradingAllowed (resetDailyPnLIfNeeded s today) = true →
      ¬ o.totalSize > cfg.maxOrderSize →
      ¬ |calculateNewPosition o inv| > cfg.maxPositionSize →
      ¬ (resetDailyPnLIfNeeded s today).dailyPnL + estimateOrderPnL o m < -cfg.maxDailyLoss →
      m.bidAskSpread > 1 / 100 →
      validateOrder cfg s o inv m nowMs today
        = (resetDailyPnLIfNeeded s today, .error .spreadTooWide)) ∧
    (isTradingAllowed (resetDailyPnLIfNeeded s today) = true →
      ¬ o.totalSize > cfg.maxOrderSize →
      ¬ |calculateNewPosition o inv| > cfg.maxPositionSize →
      ¬ (resetDailyPnLIfNeeded s today).dailyPnL + estimateOrderPnL o m < -cfg.maxDailyLoss →
      ¬ m.bidAskSpread > 1 / 100 →
      nowMs - m.timestamp > 30000 →
      validateOrder cfg s o inv m nowMs today
        = (resetDailyPnLIfNeeded s today, .error .staleData)) ∧
    (isTradingAllowed (resetDailyPnLIfNeeded s today) = true →
      ¬ o.totalSize > cfg.maxOrderSize →
      ¬ |calculateNewPosition o inv| > cfg.maxPositionSize →
      ¬ (resetDailyPnLIfNeeded s today).dailyPnL + estimateOrderPnL o m < -cfg.maxDailyLoss →
      ¬ m.bidAskSpread > 1 / 100 →
      ¬ nowMs - m.timestamp > 30000 →
      m.priceChange24h < -(1 / 5) →
      validateOrder cfg s o inv m nowMs today
        = (resetDailyPnLIfNeeded s today, .error .flashCrash)) ∧
    (isTradingAllowed (resetDailyPnLIfNeeded s today) = true →
      ¬ o.totalSize > cfg.maxOrderSize →
      ¬ |calculateNewPosition o inv| > cfg.maxPositionSize →
      ¬ (resetDailyPnLIfNeeded s today).dailyPnL + estimateOrderPnL o m < -cfg.maxDailyLoss →
      ¬ m.bidAskSpread > 1 / 100 →
      ¬ nowMs - m.timestamp > 30000 →
      ¬ m.priceChange24h < -(1 / 5) →
      |o.targetPrice - m.currentPrice| / m.currentPrice > cfg.maxSlippage →
      validateOrder cfg s o inv m nowMs today
        = (resetDailyPnLIfNeeded s today, .error .slippageExceeded)) ∧
    (isTradingAllowed (resetDailyPnLIfNeeded s today) = true →
      ¬ o.totalSize > cfg.maxOrderSize →
      ¬ |calculateNewPosition o inv| > cfg.maxPositionSize →
      ¬ (resetDailyPnLIfNeeded s today).dailyPnL + estimateOrderPnL o m < -cfg.maxDailyLoss →
      ¬ m.bidAskSpread > 1 / 100 →
      ¬ nowMs - m.timestamp > 30000 →
      ¬ m.priceChange24h < -(1 / 5) →
      ¬ |o.targetPrice - m.currentPrice| / m.currentPrice > cfg.maxSlippage →
      validateOrder cfg s o inv m nowMs today = (resetDailyPnLIfNeeded s today, .ok ())) ∧
    ((validateOrder cfg s o inv m nowMs today).1 = resetDailyPnLIfNeeded s today ∧
      (today = s.lastResetDate → resetDailyPnLIfNeeded s today = s)) := by
  refine ⟨?_, ?_, ?_, ?_, ?_, ?_, ?_, ?_, ?_, validateOrder_fst cfg s o inv m nowMs today, ?_⟩
  · intro h1
    simp [validateOrder, validateOrderChecks, h1]
  · intro h1 h2
    simp [validateOrder, validateOrderChecks, h1, h2]
  · intro h1 h2 h3
    simp [validateOrder, validateOrderChecks, h1, h2, h3]
  · intro h1 h2 h3 h4
    simp [validateOrder, validateOrderChecks, h1, h2, h3, h4]
  · intro h1 h2 h3 h4 h5
    have hv : validateMarketConditions m nowMs = Except.error RiskError.spreadTooWide := by
      unfold validateMarketConditions
      rw [if_pos h5]
    simp [validateOrder, validateOrderChecks, h1, h2, h3, h4, hv]
  · intro h1 h2 h3 h4 h5 h6
    have hv : validateMarketConditions m nowMs = Except.error RiskError.staleData := by
      unfold validateMarketConditions
      rw [if_neg h5, if_pos h6]
    simp [validateOrder, validateOrderChecks, h1, h2, h3, h4, hv]
  · intro h1 h2 h3 h4 h5 h6 h7
    have hv : validateMarketConditions m nowMs = Except.error RiskError.flashCrash := by
      unfold validateMarketConditions
      rw [if_neg h5, if_neg h6, if_pos h7]
    simp [validateOrder, validateOrderChecks, h1, h2, h3, h4, hv]
  · intro h1 h2 h3 h4 h5 h6 h7 h8
    have hv : validateMarketConditions m nowMs = Except.ok () := by
      unfold validateMarketConditions
      rw [if_neg h5, if_neg h6, if_neg h7]
    have hsl : validateSlippage cfg o m = Except.error RiskError.slippageExceeded := by
      unfold validateSlippage
      rw [if_pos h8]
    simp [validateOrder, validateOrderChecks, h1, h2, h3, h4, hv, hsl]
  · intro h1 h2 h3 h4 h5 h6 h7 h8
    have hv : validateMarketConditions m nowMs = Except.ok () := by
      unfold validateMarketConditions
      rw [if_neg h5, if_neg h6, if_neg h7]
    have hsl : validateSlippage cfg o m = Except.ok () := by
      unfold validateSlippage
      rw [if_neg h8]
    simp [validateOrder, validateOrderChecks, h1, h2, h3, h4, hv, hsl]
  · intro h
    simp [resetDailyPnLIfNeeded, h]

/-- Witness for C5 amended: end-to-end scenario 3, maxOrderSize=1 rejecting a
1.5-sized intent with the order-size error, state unchanged. -/
theorem validateOrder_sequence_witness :
    validateOrder defaultRiskConfig initialRiskState oversizedOrder flatInventory calmMarket 0 0
        = (resetDailyPnLIfNeeded initialRiskState 0, .error .orderSizeExceeded) ∧
      resetDailyPnLIfNeeded initialRiskState 0 = initialRiskState := by
  refine ⟨(validateOrder_sequence defaultRiskConfig initialRiskState oversizedOrder
      flatInventory calmMarket 0 0).2.1 (by decide) ?_,
    (validateOrder_sequence defaultRiskConfig initialRiskState oversizedOrder flatInventory
      calmMarket 0 0).2.2.2.2.2.2.2.2.2.2 rfl⟩
  norm_num [oversizedOrder, defaultRiskConfig]

/-! ## C6: emergency stop latches -/

/-- C6.  A risk-metrics update that leaves `dailyPnL < -maxDailyLoss`
activates the emergency stop, and once the stop is set no sequence of
`validateOrder` / `updateRiskMetrics` calls (each with arbitrary arguments,
including wall-clock date changes that reset the daily PnL) ever clears it:
trading stays disallowed until an explicit reset. -/
theorem emergencyStop_latches (cfg : RiskConfig) (s : RiskState) (r : ExecResult)
    (ops : List RiskOp) :
    ((updateRiskMetrics cfg s r).dailyPnL < -cfg.maxDailyLoss →
        (updateRiskMetrics cfg s r).emergencyStop = true) ∧
      (s.emergencyStop = true →
        (applyRiskOps cfg s ops).emergencyStop = true ∧
          isTradingAllowed (applyRiskOps cfg s ops) = false) := by
  refine ⟨updateRiskMetrics_stop_of_loss cfg s r, fun h => ?_⟩
  have hstop := applyRiskOps_stop_mono cfg ops s h
  exact ⟨hstop, by simp [isTradingAllowed, hstop]⟩

/-- Witness for C6: a 2000-loss update on a fresh state (limit 1000) and the
latch across a concrete update+validate sequence with a date change. -/
theorem emergencyStop_latches_witness :
    (updateRiskMetrics defaultRiskConfig initialRiskState bigLossResult).emergencyStop = true ∧
      isTradingAllowed (applyRiskOps defaultRiskConfig stoppedRiskState riskOpsSample)
        = false := by
  constructor
  · apply (emergencyStop_latches defaultRiskConfig initialRiskState bigLossResult
      riskOpsSample).1
    rw [updateRiskMetrics_dailyPnL]
    norm_num [initialRiskState, bigLossResult, defaultRiskConfig]
  · exact ((emergencyStop_latches defaultRiskConfig stoppedRiskState bigLossResult
      riskOpsSample).2 rfl).2

/-! ## Execution-plan helper lemmas -/

theorem planPartSize_noskew (baseSize : ℚ) (quotes : Option QuoteInfo)
    (hskew : ∀ qu, quotes = some qu → qu.inventoryAdjustment = 0) :
    planPartSize baseSize quotes = baseSize := by
  rcases hq : quotes with _ | qu
  · rfl
  · have h0 := hskew qu hq
    simp [planPartSize, h0]

theorem executionPlan_get (cfg : ExecConfig) (nowMs totalSize duration : ℚ) (maxParts : ℕ)
    (quotes : Option QuoteInfo) (i : ℕ)
    (h : i < (calculateExecutionPlan cfg nowMs totalSize duration maxParts quotes).length) :
    (calculateExecutionPlan cfg nowMs totalSize duration maxParts quotes).get ⟨i, h⟩
      = { partIndex := i
          size := max cfg.minOrderSize
            (min cfg.maxOrderSize (planPartSize (totalSize / maxParts) quotes))
          executionTime := nowMs + i * (duration / maxParts)
          status := .pending
          targetPrice := planTargetPrice quotes } := by
  simp only [calculateExecutionPlan, List.get_eq_getElem, List.getElem_map, List.getElem_range]

theorem executionPlan_length (cfg : ExecConfig) (nowMs totalSize duration : ℚ) (maxParts : ℕ)
    (quotes : Option QuoteInfo) :
    (calculateExecutionPlan cfg nowMs totalSize duration maxParts quotes).length
      = maxParts := by
  simp [calculateExecutionPlan]

theorem sum_map_const_range (n : ℕ) (c : ℚ) :
    ((List.range n).map (fun _ => c)).sum = n * c := by
  induction n with
  | zero => simp
  | succ k ih =>
    rw [List.range_succ, List.map_append, List.sum_append]
    simp [ih]
    ring

/-! ## C7: uniform execution plan without inventory skew -/

/-- C7.  For every intent with totalSize>0, duration>0 and maxParts≥1 whose
most recent quote carries no inventory skew (adjustment zero or quote
absent), the plan has exactly maxParts parts, each of size
`clamp(totalSize/maxParts)` to `[minOrderSize, maxOrderSize]`, with scheduled
times `now + i·(duration/maxParts)` spaced exactly `duration/maxParts`
apart. -/
theorem executionPlan_uniform (cfg : ExecConfig) (nowMs totalSize duration : ℚ)
    (maxParts : ℕ) (quotes : Option QuoteInfo) (hts : 0 < totalSize) (hd : 0 < duration)
    (hp : 1 ≤ maxParts) (hskew : ∀ qu, quotes = some qu → qu.inventoryAdjustment = 0) :
    (calculateExecutionPlan cfg nowMs totalSize duration maxParts quotes).length = maxParts ∧
      (∀ (i : ℕ)
        (h : i < (calculateExecutionPlan cfg nowMs totalSize duration maxParts quotes).length),
        ((calculateExecutionPlan cfg nowMs totalSize duration maxParts quotes).get ⟨i, h⟩).size
            = max cfg.minOrderSize (min cfg.maxOrderSize (totalSize / maxParts)) ∧
          ((calculateExecutionPlan cfg nowMs totalSize duration maxParts
              quotes).get ⟨i, h⟩).executionTime
            = nowMs + i * (duration / maxParts)) ∧
      (∀ (i : ℕ)
        (h1 : i < (calculateExecutionPlan cfg nowMs totalSize duration maxParts quotes).length)
        (h2 : i + 1
          < (calculateExecutionPlan cfg nowMs totalSize duration maxParts quotes).length),
        ((calculateExecutionPlan cfg nowMs totalSize duration maxParts
            quotes).get ⟨i + 1, h2⟩).executionTime
          - ((calculateExecutionPlan cfg nowMs totalSize duration maxParts
              quotes).get ⟨i, h1⟩).executionTime
          = duration / maxParts) := by
  have hbase : ∀ (i : ℕ)
      (h : i < (calculateExecutionPlan cfg nowMs totalSize duration maxParts quotes).length),
      (calculateExecutionPlan cfg nowMs totalSize duration maxParts quotes).get ⟨i, h⟩
        = { partIndex := i
            size := max cfg.minOrderSize (min cfg.maxOrderSize (totalSize / maxParts))
            executionTime := nowMs + i * (duration / maxParts)
            status := .pending
            targetPrice := planTargetPrice quotes } := by
    intro i h
    rw [executionPlan_get, planPartSize_noskew _ _ hskew]
  refine ⟨executionPlan_length cfg nowMs totalSize duration maxParts quotes, fun i h => ?_,
    fun i h1 h2 => ?_⟩
  · rw [hbase i h]
    exact ⟨rfl, rfl⟩
  · rw [hbase i h1, hbase (i + 1) h2]
    push_cast
    ring

/-- Witness for C7: end-to-end scenario 2 — totalSize 1.0, duration 300000 ms,
10 parts, no quote — yields a ten-part plan. -/
theorem executionPlan_uniform_witness :
    (calculateExecutionPlan defaultExecConfig 0 1 300000 10 none).length = 10 :=
  (executionPlan_uniform defaultExecConfig 0 1 300000 10 none (by norm_num) (by norm_num)
    (by norm_num) (fun qu hq => by cases hq)).1

/-! ## C8: size conservation -/

/-- C8 counterexample.  Size conservation fails in general: an intent of
totalSize 2 with one part against maxOrderSize 1 is clamped to a single
1.0-sized part, so the plan's sizes sum to 1, off by a full unit — far more
than one minimum lot (0.01). -/
theorem plan_sizes_not_conserved :
    |sumSizes (calculateExecutionPlan defaultExecConfig 0 2 1000 1 none) - 2|
      > defaultExecConfig.minOrderSize := by
  norm_num [calculateExecutionPlan, sumSizes, defaultExecConfig, List.range_succ,
    planPartSize, min_def, max_def]

/-- C8 amended.  When no inventory skew applies and the uniform part size
`totalSize/maxParts` already lies within `[minOrderSize, maxOrderSize]` (so
the clamp is inert), the PartSpec sizes sum exactly to totalSize. -/
theorem plan_sizes_conserved (cfg : ExecConfig) (nowMs totalSize duration : ℚ)
    (maxParts : ℕ) (quotes : Option QuoteInfo) (hp : 1 ≤ maxParts)
    (hskew : ∀ qu, quotes = some qu → qu.inventoryAdjustment = 0)
    (hlo : cfg.minOrderSize ≤ totalSize / maxParts)
    (hhi : totalSize / maxParts ≤ cfg.maxOrderSize) :
    sumSizes (calculateExecutionPlan cfg nowMs totalSize duration maxParts quotes)
      = totalSize := by
  have hn : (maxParts : ℚ) ≠ 0 := Nat.cast_ne_zero.mpr (by omega)
  have hsz : (calculateExecutionPlan cfg nowMs totalSize duration maxParts quotes).map
        PartSpec.size = (List.range maxParts).map (fun _ => totalSize / maxParts) := by
    unfold calculateExecutionPlan
    rw [List.map_map]
    apply List.map_congr_left
    intro i _
    show max cfg.minOrderSize (min cfg.maxOrderSize _) = totalSize / maxParts
    rw [planPartSize_noskew _ _ hskew, min_eq_right hhi, max_eq_right hlo]
  rw [sumSizes, hsz, sum_map_const_range]
  rw [mul_comm, div_mul_cancel₀ totalSize hn]

/-- Witness for C8 amended at scenario 2: ten parts of 0.1 sum to 1.0. -/
theorem plan_sizes_conserved_witness :
    sumSizes (calculateExecutionPlan defaultExecConfig 0 1 300000 10 none) = 1 :=
  plan_sizes_conserved defaultExecConfig 0 1 300000 10 none (by norm_num)
    (fun qu hq => by cases hq) (by norm_num [defaultExecConfig])
    (by norm_num [defaultExecConfig])

/-! ## C10: a part failure aborts the rest of the order -/

theorem runParts_firstFail (backend : ℕ → Bool) :
    ∀ (ps : List PartSpec) (i j : ℕ) (hj : j < ps.length),
      (∀ t, t < j → backend (i + t) = true) → backend (i + j) = false →
      runParts backend ps i
        = ((ps.take j).map markExecuted ++ markFailed (ps.get ⟨j, hj⟩) :: ps.drop (j + 1),
          false) := by
  intro ps
  induction ps with
  | nil =>
    intro i j hj
    exact absurd hj (by simp)
  | cons p rest ih =>
    intro i j hj hpre hfail
    cases j with
    | zero =>
      have hb : backend i = false := by simpa using hfail
      simp [runParts, hb]
    | succ t =>
      have hb : backend i = true := by simpa using hpre 0 (Nat.succ_pos t)
      have hpre2 : ∀ u, u < t → backend (i + 1 + u) = true := by
        intro u hu
        have h := hpre (u + 1) (by omega)
        have harith : i + (u + 1) = i + 1 + u := by omega
        rw [harith] at h
        exact h
      have hfail2 : backend (i + 1 + t) = false := by
        have harith : i + (t + 1) = i + 1 + t := by omega
        rw [harith] at hfail
        exact hfail
      have hj2 : t < rest.length := by simpa using hj
      have hrec := ih (i + 1) t hj2 hpre2 hfail2
      simp [runParts, hb, hrec]

/-- C10.  If the execution backend succeeds on the first `j` parts and throws
on part `j`, the scheduling loop marks parts `0..j-1` executed, marks part
`j` failed, leaves every later part untouched (still pending — they are never
executed), marks the whole order failed, and removes it from the
active-order map (second component `false`). -/
theorem partFailure_aborts (backend : ℕ → Bool) (ord : ActiveOrder) (j : ℕ)
    (hj : j < ord.plan.length) (hpre : ∀ t, t < j → backend t = true)
    (hfail : backend j = false) :
    runOrder backend ord
      = ({ plan := (ord.plan.take j).map markExecuted
              ++ markFailed (ord.plan.get ⟨j, hj⟩) :: ord.plan.drop (j + 1),
           status := .failedStatus }, false) := by
  have h := runParts_firstFail backend ord.plan 0 j hj (by simpa using hpre)
    (by simpa using hfail)
  unfold runOrder
  rw [h]
  simp

/-- Witness for C10: a three-part order whose backend fails on the second
part ends failed and deleted from the active-order map. -/
theorem partFailure_aborts_witness :
    (runOrder backendFailSecond sampleActiveOrder).1.status = OrderStatus.failedStatus ∧
      (runOrder backendFailSecond sampleActiveOrder).2 = false := by
  rw [partFailure_aborts backendFailSecond sampleActiveOrder 1 (by decide) (by decide)
    (by decide)]
  exact ⟨rfl, rfl⟩
